import Mathlib

/-!
Shallow embedding of the resilient request pipeline of the lead-generation
repository: the rate-limited retrying transport (`utils/api-client.js`),
the bulk-enrichment collaborator (`modules/enrichment.js`), and the
workflow orchestrator (`workflows/lead-workflow.js`, `generateLeads`).
-/

namespace LeadGen

/-- A JavaScript exception as thrown by axios: `status = some s` models
`error.response` being present with `error.response.status = s`;
`status = none` models a network/transport error with no response.
`msg` is `error.message`. -/
structure JsErr where
  status : Option Nat
  msg : String
  deriving DecidableEq, Repr

/-- Outcome of one physical axios call (the collaborator's behaviour at a
given attempt index). -/
inductive CallOutcome (α : Type) where
  | ok (resp : α)
  | err (e : JsErr)
  deriving DecidableEq, Repr

/-- `error.response && error.response.status >= 400 && error.response.status < 500`
from `api-client.js` line 133. -/
def isClientError (e : JsErr) : Bool :=
  match e.status with
  | some s => decide (400 ≤ s) && decide (s < 500)
  | none => false

/-- Observable events of one logical `request` execution:
the single `_rateLimit()` acquire, each physical dispatch (tagged with its
0-indexed attempt number), and each exponential-backoff sleep (in ms). -/
inductive Ev where
  | acquire
  | call (attempt : Nat)
  | backoff (ms : Nat)
  deriving DecidableEq, Repr

/-- The retry loop of `APIClient.request` (`api-client.js` lines 126-150),
with `fuel = retries - attempt` remaining loop iterations and `last` the
current `lastError` (`none` models the still-undefined `lastError`).
Returns the event trace of the loop together with the returned response or
the thrown error (`Except.error` models the `throw`). -/
def requestLoop (oracle : Nat → CallOutcome α) (retries : Nat) :
    Nat → Nat → Option JsErr → List Ev × Except (Option JsErr) α
  | _, 0, last => ([], .error last)
  | attempt, fuel + 1, _ =>
    match oracle attempt with
    | .ok r => ([.call attempt], .ok r)
    | .err e =>
      if isClientError e then
        ([.call attempt], .error (some e))
      else if attempt < retries - 1 then
        let rest := requestLoop oracle retries (attempt + 1) fuel (some e)
        (.call attempt :: .backoff (2 ^ attempt * 1000) :: rest.1, rest.2)
      else
        ([.call attempt], .error (some e))

/-- `APIClient.request` (`api-client.js` lines 103-151): one `_rateLimit()`
acquire, then the loop `for (let attempt = 0; attempt < retries; attempt++)`. -/
def request (oracle : Nat → CallOutcome α) (retries : Nat) :
    List Ev × Except (Option JsErr) α :=
  let r := requestLoop oracle retries 0 retries none
  (Ev.acquire :: r.1, r.2)

/-- Number of physical dispatches in a trace. -/
def countCalls (t : List Ev) : Nat :=
  t.countP (fun ev => match ev with | .call _ => true | _ => false)

/-- Number of rate-limiter acquires in a trace. -/
def countAcquires (t : List Ev) : Nat :=
  t.countP (fun ev => match ev with | .acquire => true | _ => false)

/-- `true` iff every physical dispatch in the trace is preceded by a fresh
rate-limiter acquire issued since the previous dispatch. The boolean
argument records whether an acquire has happened since the last dispatch. -/
def coveredByAcquire : List Ev → Bool → Bool
  | [], _ => true
  | .acquire :: rest, _ => coveredByAcquire rest true
  | .call _ :: rest, armed => armed && coveredByAcquire rest false
  | .backoff _ :: rest, armed => coveredByAcquire rest armed

/-- The backoff delays of a trace, each paired with the attempt index of the
physical call it immediately precedes. -/
def backoffsBefore : List Ev → List (Nat × Nat)
  | [] => []
  | .acquire :: rest => backoffsBefore rest
  | .call _ :: rest => backoffsBefore rest
  | .backoff d :: rest =>
    match rest with
    | .call i :: _ => (d, i) :: backoffsBefore rest
    | _ => backoffsBefore rest

/-- An oracle under which every physical call fails with a network error
(no HTTP response), the retryable case of the classifier. -/
def alwaysNetworkError : Nat → CallOutcome Nat :=
  fun _ => .err ⟨none, "socket hang up"⟩

/-- An oracle whose very first physical call returns HTTP 404. -/
def firstCall404 : Nat → CallOutcome Nat :=
  fun _ => .err ⟨some 404, "Request failed with status code 404"⟩

theorem requestLoop_calls_le (oracle : Nat → CallOutcome α) (retries : Nat) :
    ∀ fuel attempt last,
      countCalls (requestLoop oracle retries attempt fuel last).1 ≤ fuel := by
  intro fuel
  induction fuel with
  | zero => intro a last; simp [requestLoop, countCalls]
  | succ n ih =>
    intro a last
    simp only [requestLoop]
    cases h : oracle a with
    | ok r => simp [countCalls]
    | err e =>
      by_cases hc : isClientError e
      · simp [hc, countCalls]
      · by_cases hr : a < retries - 1
        · simp only [hc, hr, Bool.false_eq_true, if_false, if_true]
          have := ih (a + 1) (some e)
          simp [countCalls, List.countP_cons] at this ⊢
          omega
        · simp [hc, hr, countCalls]

theorem requestLoop_acquires_zero (oracle : Nat → CallOutcome α) (retries : Nat) :
    ∀ fuel attempt last,
      countAcquires (requestLoop oracle retries attempt fuel last).1 = 0 := by
  intro fuel
  induction fuel with
  | zero => intro a last; simp [requestLoop, countAcquires]
  | succ n ih =>
    intro a last
    simp only [requestLoop]
    cases h : oracle a with
    | ok r => simp [countAcquires]
    | err e =>
      by_cases hc : isClientError e
      · simp [hc, countAcquires]
      · by_cases hr : a < retries - 1
        · simp only [hc, hr, Bool.false_eq_true, if_false, if_true]
          simpa [countAcquires, List.countP_cons] using ih (a + 1) (some e)
        · simp [hc, hr, countAcquires]

/-- C2: for every logical operation, the transport issues at most `retries`
physical calls; and when the first physical call returns an HTTP status in
[400,500), exactly one physical call is issued in total and the error is
propagated immediately, with no retry. -/
theorem request_call_budget_and_4xx (oracle : Nat → CallOutcome α) (retries : Nat) :
    countCalls (request oracle retries).1 ≤ retries ∧
    (∀ e, 1 ≤ retries → oracle 0 = .err e → isClientError e = true →
      countCalls (request oracle retries).1 = 1 ∧
      (request oracle retries).2 = .error (some e)) := by
  constructor
  · have := requestLoop_calls_le oracle retries retries 0 none
    simp [request, countCalls, List.countP_cons] at this ⊢
    omega
  · intro e hr h0 hc
    cases retries with
    | zero => omega
    | succ n => simp [request, requestLoop, h0, hc, countCalls]

/-- C2 witness: with three attempts allowed and a first response of 404,
exactly one physical call occurs and the 404 error is thrown. -/
theorem request_call_budget_and_4xx_witness :
    countCalls (request firstCall404 3).1 = 1 ∧
    (request firstCall404 3).2 =
      .error (some ⟨some 404, "Request failed with status code 404"⟩) :=
  (request_call_budget_and_4xx firstCall404 3).2
    ⟨some 404, "Request failed with status code 404"⟩
    (by decide) (by decide) (by decide)

/-- C3 counterexample: under an oracle whose calls all fail with retryable
network errors, a single logical `request` issues several physical calls but
only the first is preceded by a rate-limiter acquire — the retry dispatches
happen with no intervening acquire, refuting the claim that every physical
call is immediately preceded by an acquire. -/
theorem request_retry_skips_acquire :
    coveredByAcquire (request alwaysNetworkError 3).1 false = false ∧
    countCalls (request alwaysNetworkError 3).1 = 3 := by decide

/-- C3 amended: `request` performs exactly one rate-limiter acquire per
logical operation, placed at the very start of the trace (so it precedes
the first physical call); retry attempts are not preceded by further
acquires. -/
theorem request_single_acquire_first (oracle : Nat → CallOutcome α) (retries : Nat) :
    (request oracle retries).1.head? = some .acquire ∧
    countAcquires (request oracle retries).1 = 1 := by
  refine ⟨rfl, ?_⟩
  show countAcquires (Ev.acquire :: (requestLoop oracle retries 0 retries none).1) = 1
  rw [countAcquires, List.countP_cons]
  have := requestLoop_acquires_zero oracle retries retries 0 none
  rw [countAcquires] at this
  simp [this]

theorem requestLoop_head (oracle : Nat → CallOutcome α) (retries : Nat)
    (fuel attempt : Nat) (last : Option JsErr) :
    ∃ t, (requestLoop oracle retries attempt (fuel + 1) last).1 =
      .call attempt :: t := by
  simp only [requestLoop]
  cases oracle attempt with
  | ok r => exact ⟨[], rfl⟩
  | err e =>
    by_cases hc : isClientError e
    · simp [hc]
    · by_cases hr : attempt < retries - 1
      · simp [hc, hr]
      · simp [hc, hr]

theorem backoffsBefore_requestLoop (oracle : Nat → CallOutcome α) (retries : Nat) :
    ∀ fuel attempt last,
      ∀ p ∈ backoffsBefore (requestLoop oracle retries attempt fuel last).1,
        1 ≤ p.2 ∧ p.1 = 2 ^ (p.2 - 1) * 1000 := by
  intro fuel
  induction fuel with
  | zero => intro a last p hp; simp [requestLoop, backoffsBefore] at hp
  | succ n ih =>
    intro a last p hp
    simp only [requestLoop] at hp
    cases h : oracle a with
    | ok r => simp [h, backoffsBefore] at hp
    | err e =>
      rw [h] at hp
      by_cases hc : isClientError e
      · simp [hc, backoffsBefore] at hp
      · by_cases hr : a < retries - 1
        · simp only [hc, hr, Bool.false_eq_true, if_false, if_true] at hp
          cases n with
          | zero =>
            simp [requestLoop, backoffsBefore] at hp
          | succ m =>
            obtain ⟨t, ht⟩ := requestLoop_head oracle retries m (a + 1) (some e)
            rw [ht] at hp
            simp only [backoffsBefore, List.mem_cons] at hp
            rcases hp with rfl | hp
            · exact ⟨Nat.le_add_left 1 a, by simp⟩
            · exact ih (a + 1) (some e) p (by rw [ht]; exact hp)
        · simp [hc, hr, backoffsBefore] at hp

/-- C4 counterexample: with all calls failing retryably, the backoff
inserted before physical attempt 1 is 1000 ms, not `2^1 * 1000 = 2000` ms
as the claim states. -/
theorem request_backoff_before_attempt_one :
    (backoffsBefore (request alwaysNetworkError 3).1).head? = some (1000, 1) ∧
    (1000 : Nat) ≠ 2 ^ 1 * 1000 := by decide

/-- C4 amended: the backoff delay inserted before physical attempt `i`
(0-indexed, `i ≥ 1`) equals `2^(i-1) * 1000` ms — the code waits
`2^j * 1000` ms after failed attempt `j` — and it is a deterministic
function of the attempt index alone. -/
theorem request_backoff_formula (oracle : Nat → CallOutcome α) (retries : Nat) :
    ∀ p ∈ backoffsBefore (request oracle retries).1,
      1 ≤ p.2 ∧ p.1 = 2 ^ (p.2 - 1) * 1000 := by
  intro p hp
  have : backoffsBefore (request oracle retries).1 =
      backoffsBefore (requestLoop oracle retries 0 retries none).1 := by
    simp [request, backoffsBefore]
  rw [this] at hp
  exact backoffsBefore_requestLoop oracle retries retries 0 none p hp

/-- C4 amended witness: the first retry of a failing request is preceded by
a backoff of `2^0 * 1000 = 1000` ms. -/
theorem request_backoff_formula_witness :
    (1000, 1) ∈ backoffsBefore (request alwaysNetworkError 3).1 ∧
    1 ≤ (1000, 1).2 ∧ (1000, 1).1 = 2 ^ ((1000, 1).2 - 1) * 1000 :=
  ⟨by decide, request_backoff_formula alwaysNetworkError 3 (1000, 1) (by decide)⟩

/-- `minInterval` of `_rateLimit` (`api-client.js` line 90):
`(60 * 1000) / this.rateLimit`, in milliseconds. Time is modelled with
exact rational arithmetic. -/
def minInterval (rateLimit : ℚ) : ℚ := 60000 / rateLimit

/-- `_rateLimit` (`api-client.js` lines 87-99) under the idealized timing
model: `last` is `this.lastRequestTime`, `now` is `Date.now()` on entry.
If less than the minimum interval has elapsed, the caller sleeps exactly
`minInterval - (now - last)` ms, so the time recorded into
`lastRequestTime` (at which the physical call is dispatched) is
`last + minInterval`; otherwise it is `now`. -/
def acquireTime (rateLimit last now : ℚ) : ℚ :=
  if now - last < minInterval rateLimit then last + minInterval rateLimit else now

/-- Successive dispatches through one `APIClient` instance: fold
`_rateLimit` over the entry times of the calls, threading
`this.lastRequestTime`, collecting the recorded dispatch times. -/
def dispatchTimes (rateLimit last : ℚ) : List ℚ → List ℚ
  | [] => []
  | now :: rest =>
    let t := acquireTime rateLimit last now
    t :: dispatchTimes rateLimit t rest

theorem acquireTime_spacing (rateLimit last now : ℚ) :
    last + minInterval rateLimit ≤ acquireTime rateLimit last now := by
  unfold acquireTime
  split
  · exact le_refl _
  · linarith [not_lt.mp (by assumption : ¬ now - last < minInterval rateLimit)]

theorem dispatchTimes_chain (rateLimit : ℚ) :
    ∀ (nows : List ℚ) (last : ℚ),
      List.Chain' (fun a b => a + minInterval rateLimit ≤ b)
        (dispatchTimes rateLimit last nows) := by
  intro nows
  induction nows with
  | nil => intro last; simp [dispatchTimes]
  | cons now rest ih =>
    intro last
    rw [dispatchTimes, List.chain'_cons']
    refine ⟨?_, ih (acquireTime rateLimit last now)⟩
    intro b hb
    cases rest with
    | nil => simp [dispatchTimes] at hb
    | cons now2 r2 =>
      simp only [dispatchTimes, List.head?_cons, Option.mem_def, Option.some.injEq] at hb
      subst hb
      exact acquireTime_spacing rateLimit (acquireTime rateLimit last now) now2

/-- C6: for every rate limit `R ≥ 1`, `_rateLimit` suspends the caller
until at least `60000 / R` ms have elapsed since the previously recorded
dispatch, then records the new dispatch time; consequently any two
consecutive dispatch times through one instance are at least `60000 / R`
ms apart. -/
theorem rateLimiter_min_spacing (R : ℚ) (h : 1 ≤ R) (last0 : ℚ) (nows : List ℚ) :
    (∀ last now, last + 60000 / R ≤ acquireTime R last now) ∧
    List.Chain' (fun a b => a + 60000 / R ≤ b) (dispatchTimes R last0 nows) :=
  ⟨fun last now => acquireTime_spacing R last now,
   dispatchTimes_chain R nows last0⟩

/-- C6 witness: at 2 requests per minute, two back-to-back call entries at
times 0 and 5 ms are dispatched at least 30000 ms apart. -/
theorem rateLimiter_min_spacing_witness :
    (1 : ℚ) ≤ 2 ∧
    ((∀ last now, last + 60000 / 2 ≤ acquireTime 2 last now) ∧
     List.Chain' (fun a b => a + 60000 / 2 ≤ b) (dispatchTimes 2 0 [0, 5])) :=
  ⟨by norm_num, rateLimiter_min_spacing 2 (by norm_num) 0 [0, 5]⟩

/-- The enrichment batching loop of `generateLeads`
(`lead-workflow.js` lines 67-68):
`for (let i = 0; i < leadsToProcess.length; i += 10) leadsToProcess.slice(i, i + 10)`,
expressed as the list of contiguous chunks it produces. -/
def chunk10 (xs : List α) : List (List α) :=
  if xs.isEmpty then [] else xs.take 10 :: chunk10 (xs.drop 10)
termination_by xs.length
decreasing_by
  simp only [List.length_drop]
  rcases xs with _ | ⟨x, t⟩
  · simp_all
  · simp; omega

theorem chunk10_nil : chunk10 ([] : List α) = [] := by
  rw [chunk10]; rfl

theorem chunk10_cons (x : α) (t : List α) :
    chunk10 (x :: t) = (x :: t).take 10 :: chunk10 ((x :: t).drop 10) := by
  rw [chunk10]; rfl

/-- C9: splitting a list of length `L` into batches of 10 yields exactly
`⌈L/10⌉` contiguous chunks, each of at most 10 items, and concatenating the
chunks in order reproduces the input exactly. -/
theorem chunk10_spec (xs : List α) :
    (chunk10 xs).length = (xs.length + 9) / 10 ∧
    (∀ c ∈ chunk10 xs, c.length ≤ 10) ∧
    (chunk10 xs).flatten = xs := by
  have H : ∀ (n : Nat) (ys : List α), ys.length ≤ n →
      (chunk10 ys).length = (ys.length + 9) / 10 ∧
      (∀ c ∈ chunk10 ys, c.length ≤ 10) ∧
      (chunk10 ys).flatten = ys := by
    intro n
    induction n with
    | zero =>
      intro ys hy
      have : ys = [] := List.length_eq_zero.mp (Nat.le_zero.mp hy)
      subst this
      simp [chunk10_nil]
    | succ n ih =>
      intro ys hy
      rcases ys with _ | ⟨y, t⟩
      · simp [chunk10_nil]
      · have hdrop : ((y :: t).drop 10).length ≤ n := by
          simp only [List.length_drop, List.length_cons]
          simp only [List.length_cons] at hy
          omega
        obtain ⟨ih1, ih2, ih3⟩ := ih ((y :: t).drop 10) hdrop
        rw [chunk10_cons]
        refine ⟨?_, ?_, ?_⟩
        · rw [List.length_cons, ih1, List.length_drop, List.length_cons]
          omega
        · intro c hc
          rcases List.mem_cons.mp hc with hc | hc
          · simp [hc, List.length_take]
          · exact ih2 c hc
        · simp only [List.flatten_cons, ih3, List.take_append_drop]
  exact H xs.length xs le_rfl

/-- `lead.organization` sub-object as read by the workflow
(`?.name`, `?.website_url`). -/
structure Organization where
  name : Option String
  website_url : Option String
  deriving DecidableEq, Repr

/-- A person record as produced by the search collaborator or by
enrichment (`match.person`); `none` models an absent (undefined) field. -/
structure Lead where
  first_name : Option String
  last_name : Option String
  email : Option String
  title : Option String
  organization : Option Organization
  organization_name : Option String
  linkedin_url : Option String
  deriving DecidableEq, Repr

/-- One record of `batchData` (`lead-workflow.js` lines 69-75). -/
structure EnrichInput where
  first_name : Option String
  last_name : Option String
  email : Option String
  organization_name : Option String
  linkedin_url : Option String
  deriving DecidableEq, Repr

/-- The mapping `batch.map(lead => ({...}))` of `lead-workflow.js`
lines 69-75; `lead.organization?.name` is optional chaining. -/
def toEnrichInput (lead : Lead) : EnrichInput :=
  { first_name := lead.first_name
    last_name := lead.last_name
    email := lead.email
    organization_name := lead.organization.bind Organization.name
    linkedin_url := lead.linkedin_url }

/-- One element of `response.matches` of `POST /people/bulk_match`. -/
structure MatchEntry where
  person : Option Lead
  deriving DecidableEq, Repr

/-- The `{success, error?, data}` shape returned by
`EnrichmentModule.enrichPeopleBulk`; `error = none` models the key being
absent. -/
structure BulkResult where
  success : Bool
  error : Option String
  data : List MatchEntry
  deriving DecidableEq, Repr

/-- The `params` object built by `enrichPeopleBulk`
(`enrichment.js` lines 76-80). -/
structure BulkParams where
  details : List EnrichInput
  reveal_personal_emails : Bool
  reveal_phone_number : Bool
  deriving DecidableEq, Repr

/-- The JSON body answered by `POST /people/bulk_match`;
`matches = none` models a response without a `matches` key. -/
structure BulkMatchResp where
  «matches» : Option (List MatchEntry)
  deriving DecidableEq, Repr

/-- `EnrichmentModule.enrichPeopleBulk` (`enrichment.js` lines 63-99):
`post` is `apiClient.post('/people/bulk_match', params)`, which may throw
(`Except.error`). The second component counts how many times the transport
was invoked. More than 10 records throw a local validation error inside
the `try`, caught below into a structured failure, before any network
call. -/
def enrichPeopleBulk (post : BulkParams → Except JsErr BulkMatchResp)
    (peopleData : List EnrichInput)
    (revealPersonalEmails revealPhoneNumber : Bool) : BulkResult × Nat :=
  if peopleData.length > 10 then
    ({ success := false
       error := some ("Bulk enrichment supports maximum 10 people per request")
       data := [] }, 0)
  else
    match post { details := peopleData
                 reveal_personal_emails := revealPersonalEmails
                 reveal_phone_number := revealPhoneNumber } with
    | .ok resp => ({ success := true, error := none, data := resp.«matches».getD [] }, 1)
    | .error e => ({ success := false, error := some e.msg, data := [] }, 1)

/-- C8: on a batch of more than 10 records, `enrichPeopleBulk` raises the
cap violation locally: the transport is never invoked and the caller gets
the structured failure `{success: false, error, data: []}`. -/
theorem enrichPeopleBulk_cap (post : BulkParams → Except JsErr BulkMatchResp)
    (peopleData : List EnrichInput) (rpe rpn : Bool)
    (h : peopleData.length > 10) :
    enrichPeopleBulk post peopleData rpe rpn =
      ({ success := false
         error := some ("Bulk enrichment supports maximum 10 people per request")
         data := [] }, 0) := by
  simp [enrichPeopleBulk, h]

/-- C8 witness: a batch of 11 empty records is rejected with zero
transport calls, whatever the transport would have answered. -/
theorem enrichPeopleBulk_cap_witness :
    (List.replicate 11 (⟨none, none, none, none, none⟩ : EnrichInput)).length > 10 ∧
    enrichPeopleBulk (fun _ => .ok ⟨some []⟩)
        (List.replicate 11 ⟨none, none, none, none, none⟩) false false =
      ({ success := false
         error := some ("Bulk enrichment supports maximum 10 people per request")
         data := [] }, 0) :=
  ⟨by decide,
   enrichPeopleBulk_cap (fun _ => .ok ⟨some []⟩)
     (List.replicate 11 ⟨none, none, none, none, none⟩) false false (by decide)⟩

/-- JavaScript truthiness of an optional string: absent (`none`) and the
empty string are falsy. -/
def jsTruthy (o : Option String) : Bool :=
  match o with
  | some s => !(s == "")
  | none => false

/-- `config.maxResults || 25`: JavaScript falls back on the default when
the value is absent or `0`. -/
def jsOrNat (o : Option Nat) (d : Nat) : Nat :=
  match o with
  | some n => if n = 0 then d else n
  | none => d

/-- `a || b` on optional strings: the empty string also falls through. -/
def jsOrStr (a b : Option String) : Option String :=
  match a with
  | some s => if s = "" then b else some s
  | none => b

/-- Interpolation of an optional string inside a template literal:
an undefined value prints as `undefined`. -/
def jsStr (o : Option String) : String :=
  o.getD ("undefined")

/-- `` `${lead.first_name} ${lead.last_name}` `` from `lead-workflow.js`
line 110. -/
def leadDisplayName (lead : Lead) : String :=
  jsStr lead.first_name ++ " " ++ jsStr lead.last_name

/-- The `contactData` object built in `lead-workflow.js` lines 95-103. -/
structure ContactData where
  first_name : Option String
  last_name : Option String
  email : Option String
  title : Option String
  organization_name : Option String
  website_url : Option String
  label_names : Option (List String)
  deriving DecidableEq, Repr

/-- `lead-workflow.js` lines 95-103: `lead.organization?.name ||
lead.organization_name`, `lead.organization?.website_url`, and
`...(config.addToLists && { label_names: config.addToLists })`. -/
def toContactData (addToLists : Option (List String)) (lead : Lead) : ContactData :=
  { first_name := lead.first_name
    last_name := lead.last_name
    email := lead.email
    title := lead.title
    organization_name := jsOrStr (lead.organization.bind Organization.name) lead.organization_name
    website_url := lead.organization.bind Organization.website_url
    label_names := addToLists }

/-- Result of `search.searchPeople` as consumed by the workflow. -/
structure SearchResult where
  success : Bool
  data : List Lead
  error : Option String
  deriving DecidableEq, Repr

/-- A created contact, of which the workflow reads only `id`. -/
structure Contact where
  id : String
  deriving DecidableEq, Repr

/-- Result of `contacts.createContact`. -/
structure CreateResult where
  success : Bool
  data : Option Contact
  error : Option String
  deriving DecidableEq, Repr

/-- Result of `outreach.addContactsToSequence`. -/
structure SeqResult where
  success : Bool
  error : Option String
  deriving DecidableEq, Repr

/-- The argument of `search.searchPeople` in `lead-workflow.js` lines
46-49: the spread search filters plus `per_page`. `σ` abstracts the
filter map. -/
structure SearchParams (σ : Type) where
  filters : σ
  per_page : Nat
  deriving DecidableEq, Repr

/-- The four collaborators invoked by `generateLeads`. Each may either
return its structured result or throw (`Except.error msg` models a thrown
exception with `error.message = msg`). -/
structure Collaborators (σ : Type) where
  searchPeople : SearchParams σ → Except String SearchResult
  enrichPeopleBulk : List EnrichInput → Except String BulkResult
  createContact : ContactData → Except String CreateResult
  addContactsToSequence : String → List String → String → Except String SeqResult

/-- The `config` argument of `generateLeads`; optional fields are
`Option`-valued (`none` = absent). -/
structure WorkflowConfig (σ : Type) where
  searchFilters : σ
  enrichData : Bool
  addToLists : Option (List String)
  sequenceId : Option String
  emailAccountId : Option String
  maxResults : Option Nat

/-- An entry of `results.errors`: either a per-candidate creation failure
`{lead, error}` (`lead-workflow.js` lines 109-112) or the aggregate
`{step: 'sequence', error}` entry (lines 132-135). -/
inductive WErr where
  | leadErr (lead : String) (error : Option String)
  | stepErr (step : String) (error : Option String)
  deriving DecidableEq, Repr

/-- The `results` object returned by `generateLeads`; the top-level
`error` key (`none` = absent) is added only by the catch block. -/
structure WorkflowResult where
  searched : Nat
  enriched : Nat
  created : Nat
  addedToSequence : Nat
  errors : List WErr
  error : Option String
  deriving DecidableEq, Repr

/-- The initial `results` object of `generateLeads` (lines 36-42). -/
def emptyResult : WorkflowResult :=
  { searched := 0, enriched := 0, created := 0, addedToSequence := 0
    errors := [], error := none }

/-- The search request of step 1 (lines 46-49):
`{...config.searchFilters, per_page: Math.min(config.maxResults || 25, 100)}`. -/
def searchParams (config : WorkflowConfig σ) : SearchParams σ :=
  { filters := config.searchFilters
    per_page := min (jsOrNat config.maxResults 25) 100 }

/-- Step 2 of `generateLeads` (lines 62-84): one bulk-enrichment call per
chunk, sequentially; a successful call contributes
`enrichResult.data.map(m => m.person).filter(Boolean)`, a structured
failure contributes nothing; a thrown call aborts the loop
(`Except.error`). -/
def enrichChunks (enrich : List EnrichInput → Except String BulkResult) :
    List (List Lead) → Except String (List Lead)
  | [] => .ok []
  | batch :: rest =>
    match enrich (batch.map toEnrichInput) with
    | .error msg => .error msg
    | .ok res =>
      match enrichChunks enrich rest with
      | .error msg => .error msg
      | .ok tail =>
        .ok ((if res.success then res.data.filterMap MatchEntry.person else []) ++ tail)

/-- Outcome of the step-3 loop: either it processed every lead
(`done contacts created errs`) or a `createContact` call threw after
`created` successes and `errs` recorded failures. -/
inductive CreateOut where
  | done (contacts : List Contact) (created : Nat) (errs : List WErr)
  | thrown (created : Nat) (errs : List WErr) (msg : String)
  deriving DecidableEq, Repr

/-- Step 3 of `generateLeads` (lines 92-113): for each lead, build
`contactData`, call the contact-creation collaborator; on
`success && data` push the contact and bump `created`, otherwise push a
`{lead, error}` entry; a thrown call stops the loop with the counters
accumulated so far. -/
def createLoop (create : ContactData → Except String CreateResult)
    (addToLists : Option (List String)) : List Lead → CreateOut
  | [] => .done [] 0 []
  | lead :: rest =>
    match create (toContactData addToLists lead) with
    | .error msg => .thrown 0 [] msg
    | .ok cr =>
      match cr.success, cr.data with
      | true, some c =>
        match createLoop create addToLists rest with
        | .done cs n es => .done (c :: cs) (n + 1) es
        | .thrown n es msg => .thrown (n + 1) es msg
      | _, _ =>
        match createLoop create addToLists rest with
        | .done cs n es => .done cs n (WErr.leadErr (leadDisplayName lead) cr.error :: es)
        | .thrown n es msg => .thrown n (WErr.leadErr (leadDisplayName lead) cr.error :: es) msg

/-- `LeadWorkflow.generateLeads` (`lead-workflow.js` lines 30-149). The
whole body sits in a `try`; any collaborator throw (`Except.error`) is
caught at the top and folded into the result as a top-level `error` field
next to the counters accumulated so far. -/
def generateLeads (collab : Collaborators σ) (config : WorkflowConfig σ) :
    WorkflowResult :=
  match collab.searchPeople (searchParams config) with
  | .error msg => { emptyResult with error := some msg }
  | .ok sr =>
    if !sr.success || sr.data.isEmpty then emptyResult
    else
      let searched := sr.data.length
      match (if config.enrichData
             then (enrichChunks collab.enrichPeopleBulk (chunk10 sr.data)).map some
             else .ok none) with
      | .error msg => { emptyResult with searched := searched, error := some msg }
      | .ok enrichedLeads? =>
        let enriched := (enrichedLeads?.map List.length).getD 0
        let leadsToProcess := enrichedLeads?.getD sr.data
        match createLoop collab.createContact config.addToLists leadsToProcess with
        | .thrown created errs msg =>
          { searched := searched, enriched := enriched, created := created
            addedToSequence := 0, errors := errs, error := some msg }
        | .done contacts created errs =>
          if jsTruthy config.sequenceId && jsTruthy config.emailAccountId
              && decide (0 < contacts.length) then
            let contactIds := contacts.map Contact.id
            match collab.addContactsToSequence (config.sequenceId.getD (""))
                contactIds (config.emailAccountId.getD ("")) with
            | .error msg =>
              { searched := searched, enriched := enriched, created := created
                addedToSequence := 0, errors := errs, error := some msg }
            | .ok seqr =>
              if seqr.success then
                { searched := searched, enriched := enriched, created := created
                  addedToSequence := contactIds.length, errors := errs, error := none }
              else
                { searched := searched, enriched := enriched, created := created
                  addedToSequence := 0
                  errors := errs ++ [WErr.stepErr ("sequence") seqr.error]
                  error := none }
          else
            { searched := searched, enriched := enriched, created := created
              addedToSequence := 0, errors := errs, error := none }

/-- Number of per-candidate creation-failure entries (`{lead, error}`). -/
def countLeadErrs (errs : List WErr) : Nat :=
  errs.countP (fun e => match e with | .leadErr _ _ => true | _ => false)

/-- Number of aggregate enrollment-failure entries whose subject is
`sequence`. -/
def countSeqErrs (errs : List WErr) : Nat :=
  errs.countP (fun e => match e with | .stepErr s _ => s == "sequence" | _ => false)

/-- The list of candidates submitted to the create stage: replays steps
1-2 of `generateLeads` (an aborted or failed stage submits nothing). -/
def leadsForCreateStage (collab : Collaborators σ) (config : WorkflowConfig σ) :
    List Lead :=
  match collab.searchPeople (searchParams config) with
  | .error _ => []
  | .ok sr =>
    if !sr.success || sr.data.isEmpty then []
    else if config.enrichData then
      match enrichChunks collab.enrichPeopleBulk (chunk10 sr.data) with
      | .ok l => l
      | .error _ => []
    else sr.data

/-- No collaborator ever throws: each returns a structured result. -/
def NoThrow (collab : Collaborators σ) : Prop :=
  (∀ p, ∃ r, collab.searchPeople p = .ok r) ∧
  (∀ b, ∃ r, collab.enrichPeopleBulk b = .ok r) ∧
  (∀ c, ∃ r, collab.createContact c = .ok r) ∧
  (∀ sid ids eid, ∃ r, collab.addContactsToSequence sid ids eid = .ok r)

theorem enrichChunks_ok_of_noThrow
    (enrich : List EnrichInput → Except String BulkResult)
    (h : ∀ b, ∃ r, enrich b = .ok r) :
    ∀ chunks, ∃ l, enrichChunks enrich chunks = .ok l := by
  intro chunks
  induction chunks with
  | nil => exact ⟨[], rfl⟩
  | cons batch rest ih =>
    obtain ⟨r, hr⟩ := h (batch.map toEnrichInput)
    obtain ⟨tail, ht⟩ := ih
    refine ⟨(if r.success then r.data.filterMap MatchEntry.person else []) ++ tail, ?_⟩
    simp [enrichChunks, hr, ht]

theorem createLoop_done_of_noThrow
    (create : ContactData → Except String CreateResult)
    (atl : Option (List String))
    (h : ∀ c, ∃ r, create c = .ok r) :
    ∀ leads, ∃ cs n es, createLoop create atl leads = .done cs n es := by
  intro leads
  induction leads with
  | nil => exact ⟨[], 0, [], rfl⟩
  | cons lead rest ih =>
    obtain ⟨cs, n, es, hrec⟩ := ih
    obtain ⟨r, hr⟩ := h (toContactData atl lead)
    cases hsucc : r.success with
    | true =>
      cases hdata : r.data with
      | some c =>
        exact ⟨c :: cs, n + 1, es, by simp [createLoop, hr, hsucc, hdata, hrec]⟩
      | none =>
        exact ⟨cs, n, WErr.leadErr (leadDisplayName lead) r.error :: es,
          by simp [createLoop, hr, hsucc, hdata, hrec]⟩
    | false =>
      cases hdata : r.data with
      | some c =>
        exact ⟨cs, n, WErr.leadErr (leadDisplayName lead) r.error :: es,
          by simp [createLoop, hr, hsucc, hdata, hrec]⟩
      | none =>
        exact ⟨cs, n, WErr.leadErr (leadDisplayName lead) r.error :: es,
          by simp [createLoop, hr, hsucc, hdata, hrec]⟩

theorem createLoop_done_spec
    (create : ContactData → Except String CreateResult)
    (atl : Option (List String)) :
    ∀ leads cs n es, createLoop create atl leads = .done cs n es →
      n + countLeadErrs es = leads.length ∧ cs.length = n ∧ countSeqErrs es = 0 := by
  intro leads
  induction leads with
  | nil =>
    intro cs n es hdone
    rw [createLoop] at hdone
    injection hdone with h1 h2 h3
    subst h1; subst h2; subst h3
    simp [countLeadErrs, countSeqErrs]
  | cons lead rest ih =>
    intro cs n es hdone
    cases hr : create (toContactData atl lead) with
    | error m => simp [createLoop, hr] at hdone
    | ok r =>
      cases hsucc : r.success with
      | true =>
        cases hdata : r.data with
        | some c =>
          cases hrec : createLoop create atl rest with
          | done cs2 n2 es2 =>
            simp only [createLoop, hr, hsucc, hdata, hrec] at hdone
            injection hdone with h1 h2 h3
            subst h1; subst h2; subst h3
            obtain ⟨ia, ib, ic⟩ := ih cs2 n2 es2 hrec
            exact ⟨by simp only [List.length_cons]; omega, by simp [ib], ic⟩
          | thrown n2 es2 m =>
            simp [createLoop, hr, hsucc, hdata, hrec] at hdone
        | none =>
          cases hrec : createLoop create atl rest with
          | done cs2 n2 es2 =>
            simp only [createLoop, hr, hsucc, hdata, hrec] at hdone
            injection hdone with h1 h2 h3
            subst h1; subst h2; subst h3
            obtain ⟨ia, ib, ic⟩ := ih cs2 n2 es2 hrec
            refine ⟨?_, ib, ?_⟩
            · simp [countLeadErrs, List.countP_cons] at ia ⊢
              omega
            · simpa [countSeqErrs, List.countP_cons] using ic
          | thrown n2 es2 m =>
            simp [createLoop, hr, hsucc, hdata, hrec] at hdone
      | false =>
        cases hrec : createLoop create atl rest with
        | done cs2 n2 es2 =>
          simp only [createLoop, hr, hsucc, hrec] at hdone
          injection hdone with h1 h2 h3
          subst h1; subst h2; subst h3
          obtain ⟨ia, ib, ic⟩ := ih cs2 n2 es2 hrec
          refine ⟨?_, ib, ?_⟩
          · simp [countLeadErrs, List.countP_cons] at ia ⊢
            omega
          · simpa [countSeqErrs, List.countP_cons] using ic
        | thrown n2 es2 m =>
          simp [createLoop, hr, hsucc, hrec] at hdone

theorem enrichChunks_length_le
    (enrich : List EnrichInput → Except String BulkResult)
    (hb : ∀ b r, enrich b = .ok r → r.success = true →
      (r.data.filterMap MatchEntry.person).length ≤ b.length) :
    ∀ chunks l, enrichChunks enrich chunks = .ok l →
      l.length ≤ (chunks.map List.length).sum := by
  intro chunks
  induction chunks with
  | nil =>
    intro l hl
    rw [enrichChunks] at hl
    injection hl with h1
    subst h1
    simp
  | cons batch rest ih =>
    intro l hl
    cases hr : enrich (batch.map toEnrichInput) with
    | error m => simp [enrichChunks, hr] at hl
    | ok r =>
      cases ht : enrichChunks enrich rest with
      | error m => simp [enrichChunks, hr, ht] at hl
      | ok tail =>
        simp only [enrichChunks, hr, ht] at hl
        injection hl with h1
        subst h1
        have h2 := ih tail ht
        have h1 : (if r.success then r.data.filterMap MatchEntry.person else []).length
            ≤ batch.length := by
          cases hs : r.success with
          | true =>
            have := hb (batch.map toEnrichInput) r hr hs
            simpa using this
          | false => simp
        simp only [List.length_append, List.map_cons, List.sum_cons]
        omega

/-- The value produced by a completed enrichment stage: per chunk, a
successful call contributes its matched persons, a structured failure
contributes nothing. -/
def chunkEnrichment (enrich : List EnrichInput → Except String BulkResult)
    (chunks : List (List Lead)) : List Lead :=
  (chunks.map (fun batch =>
    match enrich (batch.map toEnrichInput) with
    | .ok r => if r.success then r.data.filterMap MatchEntry.person else []
    | .error _ => [])).flatten

theorem enrichChunks_eq_of_ok
    (enrich : List EnrichInput → Except String BulkResult)
    (chunks : List (List Lead))
    (h : ∀ batch ∈ chunks, ∃ r, enrich (batch.map toEnrichInput) = .ok r) :
    enrichChunks enrich chunks = .ok (chunkEnrichment enrich chunks) := by
  induction chunks with
  | nil => rfl
  | cons batch rest ih =>
    obtain ⟨r, hr⟩ := h batch (List.mem_cons_self _ _)
    have hrest := ih (fun b hb => h b (List.mem_cons_of_mem _ hb))
    simp [enrichChunks, chunkEnrichment, hr, hrest]

theorem chunk10_sum_length (xs : List α) :
    ((chunk10 xs).map List.length).sum = xs.length := by
  have h := (chunk10_spec xs).2.2
  calc ((chunk10 xs).map List.length).sum
      = (chunk10 xs).flatten.length := (List.length_flatten _).symm
    _ = xs.length := by rw [h]

/-- C1: `generateLeads` never surfaces an exception: its type is total.
When no collaborator throws, the result carries no top-level `error`; when
a collaborator throws during step 1 (search), step 2 (enrichment), step 3
(creation) or step 4 (enrollment), the exception is caught once at the top
and the result is the partial counters accumulated before the fault plus a
top-level `error` equal to the exception's message. -/
theorem generateLeads_catches_throws (collab : Collaborators σ)
    (config : WorkflowConfig σ) :
    (NoThrow collab → (generateLeads collab config).error = none) ∧
    (∀ msg, collab.searchPeople (searchParams config) = .error msg →
      generateLeads collab config = { emptyResult with error := some msg }) ∧
    (∀ sr msg, collab.searchPeople (searchParams config) = .ok sr →
      sr.success = true → sr.data ≠ [] → config.enrichData = true →
      enrichChunks collab.enrichPeopleBulk (chunk10 sr.data) = .error msg →
      generateLeads collab config =
        { emptyResult with searched := sr.data.length, error := some msg }) ∧
    (∀ sr leads n es msg, collab.searchPeople (searchParams config) = .ok sr →
      sr.success = true → sr.data ≠ [] →
      (if config.enrichData
        then enrichChunks collab.enrichPeopleBulk (chunk10 sr.data)
        else .ok sr.data) = .ok leads →
      createLoop collab.createContact config.addToLists leads = .thrown n es msg →
      generateLeads collab config =
        { searched := sr.data.length
          enriched := if config.enrichData then leads.length else 0
          created := n, addedToSequence := 0, errors := es, error := some msg }) ∧
    (∀ sr leads cs n es msg, collab.searchPeople (searchParams config) = .ok sr →
      sr.success = true → sr.data ≠ [] →
      (if config.enrichData
        then enrichChunks collab.enrichPeopleBulk (chunk10 sr.data)
        else .ok sr.data) = .ok leads →
      createLoop collab.createContact config.addToLists leads = .done cs n es →
      (jsTruthy config.sequenceId && jsTruthy config.emailAccountId
        && decide (0 < cs.length)) = true →
      collab.addContactsToSequence (config.sequenceId.getD ("")) (cs.map Contact.id)
          (config.emailAccountId.getD ("")) = .error msg →
      generateLeads collab config =
        { searched := sr.data.length
          enriched := if config.enrichData then leads.length else 0
          created := n, addedToSequence := 0, errors := es, error := some msg }) := by
  refine ⟨?_, ?_, ?_, ?_, ?_⟩
  · rintro ⟨hs, he, hcn, hq⟩
    obtain ⟨sr, hsr⟩ := hs (searchParams config)
    cases hcond : (!sr.success || sr.data.isEmpty) with
    | true => simp [generateLeads, hsr, hcond, emptyResult]
    | false =>
      cases hE : config.enrichData with
      | false =>
        obtain ⟨cs, n, es, hcl⟩ := createLoop_done_of_noThrow collab.createContact config.addToLists hcn sr.data
        cases hseq : (jsTruthy config.sequenceId && jsTruthy config.emailAccountId
            && decide (0 < cs.length)) with
        | false => simp [generateLeads, hsr, hcond, hE, hcl, hseq]
        | true =>
          obtain ⟨qr, hqr⟩ := hq (config.sequenceId.getD ("")) (cs.map Contact.id)
            (config.emailAccountId.getD (""))
          cases hqs : qr.success with
          | true => simp [generateLeads, hsr, hcond, hE, hcl, hseq, hqr, hqs]
          | false => simp [generateLeads, hsr, hcond, hE, hcl, hseq, hqr, hqs]
      | true =>
        obtain ⟨el, hel⟩ := enrichChunks_ok_of_noThrow _ he (chunk10 sr.data)
        obtain ⟨cs, n, es, hcl⟩ := createLoop_done_of_noThrow collab.createContact config.addToLists hcn el
        cases hseq : (jsTruthy config.sequenceId && jsTruthy config.emailAccountId
            && decide (0 < cs.length)) with
        | false => simp [generateLeads, hsr, hcond, hE, hel, Except.map, hcl, hseq]
        | true =>
          obtain ⟨qr, hqr⟩ := hq (config.sequenceId.getD ("")) (cs.map Contact.id)
            (config.emailAccountId.getD (""))
          cases hqs : qr.success with
          | true => simp [generateLeads, hsr, hcond, hE, hel, Except.map, hcl, hseq, hqr, hqs]
          | false => simp [generateLeads, hsr, hcond, hE, hel, Except.map, hcl, hseq, hqr, hqs]
  · intro msg hsr
    simp [generateLeads, hsr]
  · intro sr msg hsr hsucc hne hE hench
    simp [generateLeads, hsr, hsucc, hne, hE, hench, Except.map, emptyResult]
  · intro sr leads n es msg hsr hsucc hne hench hcl
    cases hE : config.enrichData with
    | false =>
      rw [hE, if_neg (by simp)] at hench
      injection hench with h1
      subst h1
      simp [generateLeads, hsr, hsucc, hne, hE, hcl]
    | true =>
      rw [hE, if_pos rfl] at hench
      simp [generateLeads, hsr, hsucc, hne, hE, hench, Except.map, hcl]
  · intro sr leads cs n es msg hsr hsucc hne hench hcl hseq hq
    cases hE : config.enrichData with
    | false =>
      rw [hE, if_neg (by simp)] at hench
      injection hench with h1
      subst h1
      simp [generateLeads, hsr, hsucc, hne, hE, hcl, hseq, hq]
    | true =>
      rw [hE, if_pos rfl] at hench
      simp [generateLeads, hsr, hsucc, hne, hE, hench, Except.map, hcl, hseq, hq]

/-- A collaborator family whose search call throws. -/
def searchThrow : Collaborators Unit :=
  { searchPeople := fun _ => .error ("ECONNREFUSED")
    enrichPeopleBulk := fun _ => .ok ⟨true, none, []⟩
    createContact := fun _ => .ok ⟨true, some ⟨"c1"⟩, none⟩
    addContactsToSequence := fun _ _ _ => .ok ⟨true, none⟩ }

/-- A minimal workflow configuration: no enrichment, no sequence. -/
def plainConfig : WorkflowConfig Unit :=
  { searchFilters := (), enrichData := false, addToLists := none
    sequenceId := none, emailAccountId := none, maxResults := none }

/-- C1 witness: when the search collaborator throws `ECONNREFUSED`, the
workflow returns the zero counters with a top-level `error` equal to the
exception's message instead of propagating the exception. -/
theorem generateLeads_catches_throws_witness :
    searchThrow.searchPeople (searchParams plainConfig) = .error ("ECONNREFUSED") ∧
    generateLeads searchThrow plainConfig =
      { emptyResult with error := some ("ECONNREFUSED") } :=
  ⟨rfl, (generateLeads_catches_throws searchThrow plainConfig).2.1
    ("ECONNREFUSED") rfl⟩

/-- A search candidate used by concrete scenarios. -/
def annLead : Lead := ⟨some ("Ann"), some ("Lee"), none, none, none, none, none⟩

/-- A second search candidate used by concrete scenarios. -/
def bobLead : Lead := ⟨some ("Bob"), some ("Kim"), none, none, none, none, none⟩

/-- A configuration with the enrichment stage enabled and no sequence. -/
def enrichOnConfig : WorkflowConfig Unit :=
  { searchFilters := (), enrichData := true, addToLists := none
    sequenceId := none, emailAccountId := none, maxResults := none }

/-- A collaborator family whose bulk enrichment answers a one-record batch
with two matched persons — nothing in the workflow or the enrichment module
checks that `response.matches` is no longer than the submitted batch. -/
def overEnrich : Collaborators Unit :=
  { searchPeople := fun _ => .ok ⟨true, [annLead], none⟩
    enrichPeopleBulk := fun _ => .ok ⟨true, none, [⟨some annLead⟩, ⟨some bobLead⟩]⟩
    createContact := fun _ => .ok ⟨false, none, some ("duplicate")⟩
    addContactsToSequence := fun _ _ _ => .ok ⟨true, none⟩ }

/-- C5 counterexample: with one searched candidate and an enrichment
response carrying two matched persons, the returned result has
`searched = 1 < 2 = enriched`, refuting `searched >= enriched` for
arbitrary collaborator behaviour. -/
theorem generateLeads_enriched_exceeds_searched :
    enrichOnConfig.enrichData = true ∧
    (generateLeads overEnrich enrichOnConfig).searched <
      (generateLeads overEnrich enrichOnConfig).enriched := by
  have h : generateLeads overEnrich enrichOnConfig =
      { searched := 1, enriched := 2, created := 0, addedToSequence := 0
        errors := [.leadErr ("Ann Lee") (some ("duplicate")),
                   .leadErr ("Bob Kim") (some ("duplicate"))]
        error := none } := by
    simp [generateLeads, chunk10_cons, chunk10_nil, overEnrich, enrichOnConfig,
      searchParams, jsOrNat, enrichChunks, createLoop, toContactData, toEnrichInput,
      leadDisplayName, jsStr, jsTruthy, emptyResult, Except.map, jsOrStr,
      annLead, bobLead]
  exact ⟨rfl, by rw [h]; decide⟩

/-- C5 amended: provided no collaborator throws and every successful bulk
enrichment returns at most as many matched persons as the records it was
given, every run satisfies: `created` plus the number of per-candidate
creation-failure entries equals the number of candidates submitted to the
create stage; `enriched ≤ searched`; and `addedToSequence ≤ created`. -/
theorem generateLeads_invariants (collab : Collaborators σ)
    (config : WorkflowConfig σ) (hnt : NoThrow collab)
    (hbound : ∀ b r, collab.enrichPeopleBulk b = .ok r → r.success = true →
      (r.data.filterMap MatchEntry.person).length ≤ b.length) :
    (generateLeads collab config).created +
        countLeadErrs (generateLeads collab config).errors =
      (leadsForCreateStage collab config).length ∧
    (generateLeads collab config).enriched ≤
      (generateLeads collab config).searched ∧
    (generateLeads collab config).addedToSequence ≤
      (generateLeads collab config).created := by
  obtain ⟨hs, he, hcn, hq⟩ := hnt
  obtain ⟨sr, hsr⟩ := hs (searchParams config)
  cases hcond : (!sr.success || sr.data.isEmpty) with
  | true =>
    simp [generateLeads, leadsForCreateStage, hsr, hcond, emptyResult, countLeadErrs]
  | false =>
    cases hE : config.enrichData with
    | false =>
      obtain ⟨cs, n, es, hcl⟩ := createLoop_done_of_noThrow collab.createContact
        config.addToLists hcn sr.data
      obtain ⟨ia, ib, ic⟩ := createLoop_done_spec collab.createContact
        config.addToLists sr.data cs n es hcl
      cases hseq : (jsTruthy config.sequenceId && jsTruthy config.emailAccountId
          && decide (0 < cs.length)) with
      | false =>
        simp [generateLeads, leadsForCreateStage, hsr, hcond, hE, hcl, hseq, ia]
      | true =>
        have hparts := hseq
        simp only [Bool.and_eq_true, decide_eq_true_eq] at hparts
        obtain ⟨⟨hj1, hj2⟩, hlen0⟩ := hparts
        have h0n : 0 < n := ib ▸ hlen0
        obtain ⟨qr, hqr⟩ := hq (config.sequenceId.getD ("")) (cs.map Contact.id)
          (config.emailAccountId.getD (""))
        cases hqs : qr.success with
        | true =>
          simp [generateLeads, leadsForCreateStage, hsr, hcond, hE, hcl,
            hseq, hqr, hqs, ia, ib, hj1, hj2, h0n, hlen0]
        | false =>
          simp [generateLeads, leadsForCreateStage, hsr, hcond, hE, hcl,
            hseq, hqr, hqs, hj1, hj2, h0n, hlen0,
            countLeadErrs, List.countP_append] at ia ⊢
          omega
    | true =>
      obtain ⟨el, hel⟩ := enrichChunks_ok_of_noThrow collab.enrichPeopleBulk he
        (chunk10 sr.data)
      have hlen : el.length ≤ sr.data.length := by
        have h := enrichChunks_length_le collab.enrichPeopleBulk hbound
          (chunk10 sr.data) el hel
        rwa [chunk10_sum_length] at h
      obtain ⟨cs, n, es, hcl⟩ := createLoop_done_of_noThrow collab.createContact
        config.addToLists hcn el
      obtain ⟨ia, ib, ic⟩ := createLoop_done_spec collab.createContact
        config.addToLists el cs n es hcl
      cases hseq : (jsTruthy config.sequenceId && jsTruthy config.emailAccountId
          && decide (0 < cs.length)) with
      | false =>
        simp [generateLeads, leadsForCreateStage, hsr, hcond, hE, hel,
          Except.map, hcl, hseq, ia, hlen]
      | true =>
        have hparts := hseq
        simp only [Bool.and_eq_true, decide_eq_true_eq] at hparts
        obtain ⟨⟨hj1, hj2⟩, hlen0⟩ := hparts
        have h0n : 0 < n := ib ▸ hlen0
        obtain ⟨qr, hqr⟩ := hq (config.sequenceId.getD ("")) (cs.map Contact.id)
          (config.emailAccountId.getD (""))
        cases hqs : qr.success with
        | true =>
          simp [generateLeads, leadsForCreateStage, hsr, hcond, hE, hel,
            Except.map, hcl, hseq, hqr, hqs, ia, ib, hlen, hj1, hj2, h0n, hlen0]
        | false =>
          have hlen2 := hlen
          simp [generateLeads, leadsForCreateStage, hsr, hcond, hE, hel,
            Except.map, hcl, hseq, hqr, hqs, hj1, hj2, h0n, hlen0,
            countLeadErrs, List.countP_append] at ia ⊢
          exact ⟨by omega, hlen2⟩

/-- A collaborator family that never throws: two candidates found,
enrichment answers a structured failure, creation always succeeds. -/
def twoLeadCollab : Collaborators Unit :=
  { searchPeople := fun _ => .ok ⟨true, [annLead, bobLead], none⟩
    enrichPeopleBulk := fun _ => .ok ⟨false, some ("no match"), []⟩
    createContact := fun _ => .ok ⟨true, some ⟨"c1"⟩, none⟩
    addContactsToSequence := fun _ _ _ => .ok ⟨true, none⟩ }

/-- C5 amended witness: for a concrete throw-free run over two candidates
the three invariants hold. -/
theorem generateLeads_invariants_witness :
    (generateLeads twoLeadCollab plainConfig).created +
        countLeadErrs (generateLeads twoLeadCollab plainConfig).errors =
      (leadsForCreateStage twoLeadCollab plainConfig).length ∧
    (generateLeads twoLeadCollab plainConfig).enriched ≤
      (generateLeads twoLeadCollab plainConfig).searched ∧
    (generateLeads twoLeadCollab plainConfig).addedToSequence ≤
      (generateLeads twoLeadCollab plainConfig).created :=
  generateLeads_invariants twoLeadCollab plainConfig
    ⟨fun _ => ⟨_, rfl⟩, fun _ => ⟨_, rfl⟩, fun _ => ⟨_, rfl⟩, fun _ _ _ => ⟨_, rfl⟩⟩
    (by
      intro b r hr hsu
      injection hr with h
      rw [← h] at hsu
      simp at hsu)

/-- C7: when at least one contact was created and the sequence-enrollment
collaborator returns a structured failure, `created` keeps the number of
successful creations, `addedToSequence` is 0, and exactly one aggregate
error entry with subject `sequence` is appended to the per-candidate
errors. -/
theorem generateLeads_seq_failure (collab : Collaborators σ)
    (config : WorkflowConfig σ) (sr : SearchResult) (leads : List Lead)
    (cs : List Contact) (n : Nat) (es : List WErr) (serr : Option String)
    (hsr : collab.searchPeople (searchParams config) = .ok sr)
    (hsucc : sr.success = true) (hne : sr.data ≠ [])
    (hench : (if config.enrichData
        then enrichChunks collab.enrichPeopleBulk (chunk10 sr.data)
        else .ok sr.data) = .ok leads)
    (hcl : createLoop collab.createContact config.addToLists leads = .done cs n es)
    (hcs : cs ≠ [])
    (hj1 : jsTruthy config.sequenceId = true)
    (hj2 : jsTruthy config.emailAccountId = true)
    (hq : collab.addContactsToSequence (config.sequenceId.getD (""))
        (cs.map Contact.id) (config.emailAccountId.getD ("")) = .ok ⟨false, serr⟩) :
    (generateLeads collab config).created = n ∧
    (generateLeads collab config).addedToSequence = 0 ∧
    (generateLeads collab config).errors = es ++ [WErr.stepErr ("sequence") serr] ∧
    countSeqErrs (generateLeads collab config).errors = 1 := by
  have h0cs : 0 < cs.length := List.length_pos.mpr hcs
  have hng : generateLeads collab config =
      { searched := sr.data.length
        enriched := if config.enrichData then leads.length else 0
        created := n, addedToSequence := 0
        errors := es ++ [WErr.stepErr ("sequence") serr], error := none } := by
    cases hE : config.enrichData with
    | false =>
      rw [hE, if_neg (by simp)] at hench
      injection hench with h1
      subst h1
      simp [generateLeads, hsr, hsucc, hne, hE, hcl, hj1, hj2, h0cs, hq]
    | true =>
      rw [hE, if_pos rfl] at hench
      simp [generateLeads, hsr, hsucc, hne, hE, hench, Except.map, hcl,
        hj1, hj2, h0cs, hq]
  obtain ⟨_, _, ic⟩ := createLoop_done_spec collab.createContact
    config.addToLists leads cs n es hcl
  rw [hng]
  refine ⟨rfl, rfl, rfl, ?_⟩
  simp [countSeqErrs, List.countP_append] at ic ⊢
  exact ic

/-- A configuration that targets a sequence, without enrichment. -/
def seqConfig : WorkflowConfig Unit :=
  { searchFilters := (), enrichData := false, addToLists := none
    sequenceId := some ("seq-1"), emailAccountId := some ("acct-1")
    maxResults := some 5 }

/-- A collaborator family where creation succeeds for Ann, fails for Bob,
and sequence enrollment returns a structured failure. -/
def seqFailCollab : Collaborators Unit :=
  { searchPeople := fun _ => .ok ⟨true, [annLead, bobLead], none⟩
    enrichPeopleBulk := fun _ => .ok ⟨true, none, []⟩
    createContact := fun c =>
      if c.first_name = some ("Ann") then .ok ⟨true, some ⟨"c1"⟩, none⟩
      else .ok ⟨false, none, some ("bad email")⟩
    addContactsToSequence := fun _ _ _ => .ok ⟨false, some ("quota exceeded")⟩ }

/-- C7 witness: one created contact, enrollment failure — `created` stays
1, `addedToSequence` is 0, and the error list ends with the single
`sequence` aggregate entry. -/
theorem generateLeads_seq_failure_witness :
    (generateLeads seqFailCollab seqConfig).created = 1 ∧
    (generateLeads seqFailCollab seqConfig).addedToSequence = 0 ∧
    (generateLeads seqFailCollab seqConfig).errors =
      [WErr.leadErr ("Bob Kim") (some ("bad email"))] ++
        [WErr.stepErr ("sequence") (some ("quota exceeded"))] ∧
    countSeqErrs (generateLeads seqFailCollab seqConfig).errors = 1 :=
  generateLeads_seq_failure seqFailCollab seqConfig
    ⟨true, [annLead, bobLead], none⟩ [annLead, bobLead]
    [⟨"c1"⟩] 1 [WErr.leadErr ("Bob Kim") (some ("bad email"))]
    (some ("quota exceeded"))
    rfl rfl (by decide) rfl (by decide) (by decide) rfl rfl rfl

/-- C10: when every bulk-enrichment call returns a structured result and
some chunks fail (`success: false`), the enrichment stage completes with
exactly the persons of the successful chunks (`chunkEnrichment`), the
failed chunks' candidates never reach the create stage, `enriched` counts
only the successful chunks' persons, and the error list receives no entry
for the failed chunks — it is exactly the create-stage error list. -/
theorem generateLeads_failed_chunk_silent (collab : Collaborators σ)
    (config : WorkflowConfig σ) (sr : SearchResult)
    (cs : List Contact) (n : Nat) (es : List WErr)
    (hsr : collab.searchPeople (searchParams config) = .ok sr)
    (hsucc : sr.success = true) (hne : sr.data ≠ [])
    (hE : config.enrichData = true)
    (hok : ∀ batch ∈ chunk10 sr.data,
      ∃ r, collab.enrichPeopleBulk (batch.map toEnrichInput) = .ok r)
    (hcl : createLoop collab.createContact config.addToLists
      (chunkEnrichment collab.enrichPeopleBulk (chunk10 sr.data)) = .done cs n es)
    (hseqOff : jsTruthy config.sequenceId = false) :
    enrichChunks collab.enrichPeopleBulk (chunk10 sr.data) =
      .ok (chunkEnrichment collab.enrichPeopleBulk (chunk10 sr.data)) ∧
    generateLeads collab config =
      { searched := sr.data.length
        enriched := (chunkEnrichment collab.enrichPeopleBulk (chunk10 sr.data)).length
        created := n, addedToSequence := 0, errors := es, error := none } := by
  have hel := enrichChunks_eq_of_ok collab.enrichPeopleBulk (chunk10 sr.data) hok
  refine ⟨hel, ?_⟩
  simp [generateLeads, hsr, hsucc, hne, hE, hel, Except.map, hcl, hseqOff]

/-- A collaborator family whose single enrichment chunk fails with a
structured `{success: false}` result. -/
def failChunkCollab : Collaborators Unit :=
  { searchPeople := fun _ => .ok ⟨true, [annLead], none⟩
    enrichPeopleBulk := fun _ => .ok ⟨false, some ("api down"), []⟩
    createContact := fun _ => .ok ⟨true, some ⟨"c1"⟩, none⟩
    addContactsToSequence := fun _ _ _ => .ok ⟨true, none⟩ }

/-- C10 witness: the only chunk fails — its candidate is excluded from the
create stage, `enriched = 0`, and the error list stays empty. -/
theorem generateLeads_failed_chunk_silent_witness :
    enrichChunks failChunkCollab.enrichPeopleBulk (chunk10 [annLead]) = .ok [] ∧
    generateLeads failChunkCollab enrichOnConfig =
      { searched := 1, enriched := 0, created := 0, addedToSequence := 0
        errors := [], error := none } := by
  have hch : chunk10 [annLead] = [[annLead]] := by
    simp [chunk10_cons, chunk10_nil]
  have hce : chunkEnrichment failChunkCollab.enrichPeopleBulk (chunk10 [annLead]) = [] := by
    rw [hch]
    simp [chunkEnrichment, failChunkCollab]
  have h := generateLeads_failed_chunk_silent failChunkCollab enrichOnConfig
    ⟨true, [annLead], none⟩ [] 0 []
    rfl rfl (by decide) rfl
    (fun batch _ => ⟨⟨false, some ("api down"), []⟩, rfl⟩)
    (by rw [hce]; rfl)
    rfl
  rw [hce] at h
  simpa using h

end LeadGen
